import Mathlib

/-!
Verification of the aqua-simulation aquarium-calculator core against its
design specification.

The JavaScript source is shallowly embedded over `ℚ`: every JS number that
the verified code paths manipulate is an exact decimal literal, and the
arithmetic performed on them (+, *, /, abs, comparisons, `Math.round`,
`Math.max`, `Math.min`) is exact on rationals, so the rational embedding
computes the same real values the floating-point program approximates.
Branch conditions and stored results are therefore faithfully reproduced
except for float rounding at the extreme margins, which no claim here is
about.  JS-specific semantics that the verified paths rely on are embedded
explicitly:
* `x || d` on numbers (0 is falsy) is `jsOrNum`;
* `a <= b` where `a` is a non-numeric string coerces the string to NaN and
  is therefore false, embedded by `jsLe` on the `JSVal` sum type (every
  recommendation string in the tables below starts with a digit sequence
  followed by a hyphen or a plus sign and letters, so `Number(s)` is NaN
  for each of them);
* `Math.round x` is floor (x + 1/2), embedded as `jsRound`;
* `Infinity` as a table bound is embedded as `none : Option ℚ`;
* `v.toFixed(1)` produces a string that the code only ever feeds back
  through `parseFloat` (in the sort comparator); it is embedded as the
  rational it parses back to, `toFixed1`.
-/

namespace Aqua

/-! ### src/js/constants.js, CONVERSIONS -/

def GALLONS_TO_LITERS : ℚ := 0.264172

def LITERS_TO_GALLONS : ℚ := 3.78541

def INCHES_TO_CM : ℚ := 2.54

def DISPLACEMENT_PERCENT : ℚ := 0.1

/-! ### src/js/tank-visualizer.js, class TankCalculator -/

namespace TankCalculator

/-- Embedding of TankCalculator.calculateVolume: inches are converted to
centimeters, the rectangular-prism product is taken in cm^3, and the result
is divided by 1000 to give liters. -/
def calculateVolume (length width height : ℚ) : ℚ :=
  let lengthCm := length * INCHES_TO_CM
  let widthCm := width * INCHES_TO_CM
  let heightCm := height * INCHES_TO_CM
  let volumeCm3 := lengthCm * widthCm * heightCm
  volumeCm3 / 1000

/-- Embedding of TankCalculator.convertToGallons: multiplies liters by the
constant CONVERSIONS.GALLONS_TO_LITERS (0.264172). -/
def convertToGallons (liters : ℚ) : ℚ :=
  liters * GALLONS_TO_LITERS

/-- Embedding of TankCalculator.convertToLiters: divides gallons by the
same constant CONVERSIONS.GALLONS_TO_LITERS (0.264172); the source does not
use CONVERSIONS.LITERS_TO_GALLONS here. -/
def convertToLiters (gallons : ℚ) : ℚ :=
  gallons / GALLONS_TO_LITERS

/-- Embedding of TankCalculator.adjustForDisplacement. -/
def adjustForDisplacement (volumeLiters : ℚ) (displacementPercent : ℚ := DISPLACEMENT_PERCENT) : ℚ :=
  volumeLiters * (1 - displacementPercent)

end TankCalculator

/-! ### src/js/app.js, class GlassRecommender -/

namespace GlassRecommender

/-- One row of the GlassRecommender.recommendations table
({ maxDepth, maxVolume, thickness, description }); the final row
maxVolume: Infinity is embedded as `none`. -/
structure GlassRow where
  maxDepth : ℚ
  maxVolume : Option ℚ
  thickness : ℚ
  description : String

/-- Embedding of the GlassRecommender.recommendations table. -/
def recommendations : List GlassRow :=
  [ ⟨12, some 20, 3, "3mm (for nano tanks only)"⟩,
    ⟨15, some 40, 5, "5mm (small tanks)"⟩,
    ⟨24, some 100, 6, "6mm (small-medium tanks)"⟩,
    ⟨30, some 200, 8, "8mm (medium tanks)"⟩,
    ⟨36, some 400, 10, "10mm (large tanks)"⟩,
    ⟨48, none, 12, "12mm+ (extra large tanks)"⟩ ]

/-- Embedding of GlassRecommender.getThicknessForDimensions: base thickness
from the depth step table, +2 for panelSize > 48, +2 more for
panelSize > 60, capped at 12. -/
def getThicknessForDimensions (depth panelSize : ℚ) : ℚ :=
  let baseThickness : ℚ :=
    if depth ≤ 12 then 3
    else if depth ≤ 15 then 5
    else if depth ≤ 24 then 6
    else if depth ≤ 30 then 8
    else if depth ≤ 36 then 10
    else 12
  let thickness1 := if panelSize > 48 then baseThickness + 2 else baseThickness
  let thickness2 := if panelSize > 60 then thickness1 + 2 else thickness1
  min thickness2 12

/-- Embedding of the JS `recommendations.find(rec => rec.thickness === t)`:
first row whose thickness equals `t`. -/
def findRowByThickness : List GlassRow → ℚ → Option GlassRow
  | [], _ => none
  | row :: rest, t => if row.thickness = t then some row else findRowByThickness rest t

/-- Embedding of GlassRecommender.getRecommendation: computes the step-table
thickness for (height, max(length, width)), raises it to at least 10 when
the panel exceeds 60, then returns the description of the table row with
that thickness, falling back to the description of the last row. -/
def getRecommendation (length width height : ℚ) : String :=
  let maxPanelDimension := max length width
  let recommendedThickness := getThicknessForDimensions height maxPanelDimension
  let recommendedThickness2 :=
    if maxPanelDimension > 60 then max recommendedThickness 10 else recommendedThickness
  match findRowByThickness recommendations recommendedThickness2 with
  | some row => row.description
  | none => (recommendations.getLast (by simp [recommendations])).description

/-- The professional-consultation safety note string from
GlassRecommender.getDetailedRecommendation; the quote and apostrophe
characters of the source string are inserted by code point. -/
def professionalConsultationNote : String :=
  "Consider professional consultation for tanks over 36"
    ++ String.singleton (Char.ofNat 34)
    ++ " deep or panels over 5"
    ++ String.singleton (Char.ofNat 39)
    ++ " long."

/-- The bracing safety note string from
GlassRecommender.getDetailedRecommendation. -/
def bracingNote : String :=
  "Ensure proper bracing and frame support for optimal safety."

/-- Embedding of the safetyNote computation inside
GlassRecommender.getDetailedRecommendation. -/
def detailedSafetyNote (length width height : ℚ) : String :=
  let maxPanelDimension := max length width
  if height > 36 ∨ maxPanelDimension > 60 then professionalConsultationNote
  else if height > 24 ∨ maxPanelDimension > 48 then bracingNote
  else ""

end GlassRecommender

/-! ### src/js/equipment-strategy.js (src/unnamed/part_001),
classes EquipmentStrategy and EquipmentStrategyFactory -/

namespace Equipment

/-- A JS value flowing into the strategy comparison: the criteria extractors
return either a number or (for the filter strategy) a recommendation
string. -/
inductive JSVal where
  | num (q : ℚ)
  | str (s : String)

/-- One band of a recommendation table ({ maxVolume | maxArea | maxFlow,
recommendation }); a bound of Infinity is embedded as `none`.  The generic
lookup reads whichever bound property the table uses
(EquipmentStrategy.getCriteriaProperty), so one `bound` field represents
all three property names. -/
structure Band where
  bound : Option ℚ
  recommendation : String

/-- Embedding of the JS comparison `criteriaValue <= rec[property]`:
a number compares numerically (anything is <= Infinity); a non-numeric
string coerces to NaN, and every comparison against NaN is false.  All
strings produced by the filter extractor below start with digits followed
by a hyphen or letters, so none of them parses as a number. -/
def jsLe : JSVal → Option ℚ → Prop
  | .num _, none => True
  | .num q, some b => q ≤ b
  | .str _, _ => False

instance : (v : JSVal) → (b : Option ℚ) → Decidable (jsLe v b)
  | .num _, none => inferInstanceAs (Decidable True)
  | .num q, some b => inferInstanceAs (Decidable (q ≤ b))
  | .str _, none => inferInstanceAs (Decidable False)
  | .str _, some _ => inferInstanceAs (Decidable False)

/-- Embedding of `this.recommendations.find(rec => criteriaValue <= rec[property])`. -/
def findBand : List Band → JSVal → Option Band
  | [], _ => none
  | b :: rest, v => if jsLe v b.bound then some b else findBand rest v

/-- Embedding of `this.recommendations[this.recommendations.length - 1]?.recommendation` with the `--` default:
the text of the last band, or the placeholder for an empty table.  (Every text in
the tables below is non-empty, so the JS `||` never replaces a present
text.) -/
def lastText (bands : List Band) : String :=
  match bands.getLast? with
  | some b => b.recommendation
  | none => "--"

/-- Embedding of the non-dimensions branch of
EquipmentStrategy.getRecommendation: first band the criteria value passes,
else the text of the last band, else the placeholder. -/
def getRecommendationCore (bands : List Band) (v : JSVal) : String :=
  match findBand bands v with
  | some b => b.recommendation
  | none => lastText bands

/-- Embedding of EquipmentStrategy.getDimensionsRecommendation: volume-band
lookup plus a positioning suffix for long/narrow tanks. -/
def getDimensionsRecommendation (bands : List Band) (volumeGallons length width : ℚ) : String :=
  let baseRec :=
    match findBand bands (.num volumeGallons) with
    | some b => b.recommendation
    | none => lastText bands
  if length > width * 1.5 then
    baseRec ++ " - consider multiple units for even flow in long tanks"
  else baseRec

/-- Embedding of the JS numeric `x || d` (0 is falsy). -/
def jsOrNum (x d : ℚ) : ℚ := if x = 0 then d else x

/-- EquipmentStrategyFactory.createFilterStrategy table. -/
def filterBands : List Band :=
  [ ⟨some 20, "10-20 GPH canister or small HOB filter"⟩,
    ⟨some 40, "20-40 GPH canister or medium HOB filter"⟩,
    ⟨some 75, "40-75 GPH canister filter"⟩,
    ⟨some 125, "75-125 GPH canister filter"⟩,
    ⟨some 200, "125-200 GPH canister filter"⟩,
    ⟨none, "200+ GPH canister filter or sump system"⟩ ]

/-- EquipmentStrategyFactory.createHeaterStrategy table. -/
def heaterBands : List Band :=
  [ ⟨some 10, "50-100W submersible heater"⟩,
    ⟨some 20, "100-150W submersible heater"⟩,
    ⟨some 40, "150-200W submersible heater"⟩,
    ⟨some 75, "200-300W submersible heater"⟩,
    ⟨some 125, "300-400W submersible heater"⟩,
    ⟨some 200, "400-600W submersible heater"⟩,
    ⟨none, "600W+ submersible or inline heater"⟩ ]

/-- EquipmentStrategyFactory.createChillerStrategy table. -/
def chillerBands : List Band :=
  [ ⟨some 20, "1/10 HP chiller for small tanks in warm climates"⟩,
    ⟨some 75, "1/4 HP chiller for medium tanks"⟩,
    ⟨some 125, "1/3 HP chiller for large tanks"⟩,
    ⟨none, "1/2 to 1 HP chiller for very large tanks"⟩ ]

/-- EquipmentStrategyFactory.createUVSterilizerStrategy table. -/
def uvBands : List Band :=
  [ ⟨some 100, "5-9W UV sterilizer"⟩,
    ⟨some 200, "11-18W UV sterilizer"⟩,
    ⟨some 400, "25-36W UV sterilizer"⟩,
    ⟨none, "55W+ UV sterilizer or multiple units"⟩ ]

/-- EquipmentStrategyFactory.createAirPumpStrategy table. -/
def airPumpBands : List Band :=
  [ ⟨some 2, "10-30 GPH air pump with single airstone"⟩,
    ⟨some 4, "30-60 GPH air pump with dual airstones"⟩,
    ⟨none, "60-100 GPH air pump with manifold system"⟩ ]

/-- EquipmentStrategyFactory.createThermometerStrategy table. -/
def thermometerBands : List Band :=
  [ ⟨some 20, "Digital stick thermometer"⟩,
    ⟨some 75, "Digital thermometer with external probe"⟩,
    ⟨none, "Digital thermometer with multiple probes"⟩ ]

/-- EquipmentStrategyFactory.createCirculationPumpStrategy table. -/
def circulationPumpBands : List Band :=
  [ ⟨some 20, "200-400 GPH powerhead"⟩,
    ⟨some 55, "400-800 GPH powerhead"⟩,
    ⟨some 75, "800-1200 GPH powerhead or multiple units"⟩,
    ⟨none, "1200+ GPH powerhead or multiple units"⟩ ]

/-- EquipmentStrategyFactory.createATOStrategy table. -/
def atoBands : List Band :=
  [ ⟨some 2, "1-2 gallon reservoir with small pump"⟩,
    ⟨some 4, "2-5 gallon reservoir with medium pump"⟩,
    ⟨none, "5+ gallon reservoir with large pump"⟩ ]

/-- Embedding of the custom criteria extractor installed by
createFilterStrategy: it returns a recommendation STRING built from the
volume-band table and the top-surface-area adjustments. -/
def filterExtractorText (volumeGallons topSqFt : ℚ) : String :=
  let base :=
    match findBand filterBands (.num volumeGallons) with
    | some b => b.recommendation
    | none => lastText filterBands
  if topSqFt < 1.5 ∧ volumeGallons < 20 then
    "5-10 GPH sponge filter ideal for shallow tanks with small surface area"
  else if topSqFt > 6 then
    base ++ " + surface skimmer for large surface area"
  else if topSqFt < 3 ∧ volumeGallons > 30 then
    base ++ " - consider adding powerhead for better circulation in tall/deep tanks"
  else base

/-- Embedding of the filter strategy as invoked through
EquipmentStrategy.getRecommendation: the STRING result of the custom extractor
is fed into the generic numeric band comparison. -/
def getFilterRecommendation (volumeGallons topSqFt : ℚ) : String :=
  getRecommendationCore filterBands (.str (filterExtractorText volumeGallons topSqFt))

/-- EquipmentRecommender.getHeaterRecommendation (src/js/equipment-recommendations.js). -/
def getHeaterRecommendation (volumeGallons : ℚ) : String :=
  getRecommendationCore heaterBands (.num volumeGallons)

/-- EquipmentRecommender.getChillerRecommendation. -/
def getChillerRecommendation (volumeGallons : ℚ) : String :=
  getRecommendationCore chillerBands (.num volumeGallons)

/-- EquipmentRecommender.getThermometerRecommendation. -/
def getThermometerRecommendation (volumeGallons : ℚ) : String :=
  getRecommendationCore thermometerBands (.num volumeGallons)

/-- EquipmentRecommender.getUVSterilizerRecommendation: the wrapper applies
`filterFlow || 300` and the flow extractor applies `params[2] || 300`
again. -/
def getUVSterilizerRecommendation (filterFlow : ℚ) : String :=
  getRecommendationCore uvBands (.num (jsOrNum (jsOrNum filterFlow 300) 300))

/-- EquipmentRecommender.getAirPumpRecommendation: the surfaceArea extractor
reads `params[1]?.topSqFt || 0`. -/
def getAirPumpRecommendation (topSqFt : ℚ) : String :=
  getRecommendationCore airPumpBands (.num (jsOrNum topSqFt 0))

/-- EquipmentRecommender.getATORcommendation (source spelling): same
surfaceArea extractor as the air pump. -/
def getATORcommendation (topSqFt : ℚ) : String :=
  getRecommendationCore atoBands (.num (jsOrNum topSqFt 0))

/-- EquipmentRecommender.getCirculationPumpRecommendation: dimensions-keyed
strategy receiving [volumeGallons, length, width]. -/
def getCirculationPumpRecommendation (volumeGallons length width : ℚ) : String :=
  getDimensionsRecommendation circulationPumpBands volumeGallons length width

/-- EquipmentRecommender.estimateFilterFlow: average of 3x and 5x hourly
turnover. -/
def estimateFilterFlow (volumeGallons : ℚ) : ℚ :=
  let minFlow := volumeGallons * 3
  let maxFlow := volumeGallons * 5
  (minFlow + maxFlow) / 2

/-- The record returned by EquipmentRecommender.getAllRecommendations. -/
structure AllRecommendations where
  filter : String
  heater : String
  chiller : String
  uvSterilizer : String
  airPump : String
  thermometer : String
  circulationPump : String
  ato : String

/-- Embedding of EquipmentRecommender.getAllRecommendations; of the
surfaceArea object only the topSqFt property is ever read, so the object is
embedded by that number.  The height parameter is unused by the source
body. -/
def getAllRecommendations (length width _height volumeGallons topSqFt : ℚ) : AllRecommendations :=
  let filterFlow := estimateFilterFlow volumeGallons
  { filter := getFilterRecommendation volumeGallons topSqFt
    heater := getHeaterRecommendation volumeGallons
    chiller := getChillerRecommendation volumeGallons
    uvSterilizer := getUVSterilizerRecommendation filterFlow
    airPump := getAirPumpRecommendation topSqFt
    thermometer := getThermometerRecommendation volumeGallons
    circulationPump := getCirculationPumpRecommendation volumeGallons length width
    ato := getATORcommendation topSqFt }

end Equipment

/-! ### src/js/dimension-finder.js (src/unnamed/part_000), class DimensionFinder -/

namespace DimensionFinder

/-- DimensionFinder constructor constant minDimension. -/
def minDimension : ℚ := 10

/-- DimensionFinder constructor constant maxDimension. -/
def maxDimension : ℚ := 120

/-- DimensionFinder constructor constant tolerancePercent. -/
def tolerancePercent : ℚ := 0.1

/-- Embedding of JS `constraints.maxX || default` for the optional
constraint properties: an absent property, and the falsy value 0, both give
the default. -/
def jsOrDefault (v : Option ℚ) (d : ℚ) : ℚ :=
  match v with
  | none => d
  | some x => if x = 0 then d else x

/-- The optional constraints object accepted by findDimensions. -/
structure Constraints where
  maxWidth : Option ℚ := none
  maxLength : Option ℚ := none
  maxHeight : Option ℚ := none

/-- The step-size schedule inside the getDimensionRange while loop. -/
def rangeStep (current : ℚ) : ℚ :=
  if current < 24 then 2 else if current < 48 then 4 else 6

/-- Fuel-indexed unfolding of the getDimensionRange while loop; the loop
itself terminates because every step adds at least 2, and
`getDimensionRange_eq` below proves that with the fuel used in
`getDimensionRange` this function satisfies exactly the defining
equation, so the embedding never exhausts its fuel. -/
def getDimensionRangeAux : ℕ → ℚ → ℚ → List ℚ
  | 0, _, _ => []
  | fuel + 1, current, mx =>
    if current ≤ mx then current :: getDimensionRangeAux fuel (current + rangeStep current) mx
    else []

/-- Fuel sufficient for the loop: one more than the ceiling of the distance
still to cover. -/
def rangeFuel (current mx : ℚ) : ℕ := (⌈mx - current⌉).toNat + 1

/-- Embedding of DimensionFinder.getDimensionRange. -/
def getDimensionRange (min mx : ℚ) : List ℚ :=
  getDimensionRangeAux (rangeFuel min mx) min mx

/-- Embedding of JS Math.round: floor (x + 1/2). -/
def jsRound (q : ℚ) : ℤ := ⌊q + 1 / 2⌋

/-- The rational that `parseFloat(v.toFixed(1))` yields for the
non-negative values the finder stores: v rounded to one decimal place. -/
def toFixed1 (q : ℚ) : ℚ := (jsRound (q * 10) : ℚ) / 10

/-- Decimal rendering of `v.toFixed(1)` for the non-negative ratios used in
the aspect labels. -/
def toFixed1Str (q : ℚ) : String :=
  let n : ℤ := jsRound (q * 10)
  toString (n / 10) ++ "." ++ toString (n.natAbs % 10)

/-- Embedding of DimensionFinder.calculateVolume (inches to cm, product,
/1000); identical arithmetic to TankCalculator.calculateVolume but with
the literal 2.54. -/
def calculateVolume (length width height : ℚ) : ℚ :=
  let lengthCm := length * 2.54
  let widthCm := width * 2.54
  let heightCm := height * 2.54
  let volumeCm3 := lengthCm * widthCm * heightCm
  volumeCm3 / 1000

/-- Embedding of DimensionFinder.getAspectRatio. -/
def getAspectRatio (length width height : ℚ) : String :=
  let rLW := toFixed1Str (length / width)
  let rLH := toFixed1Str (length / height)
  if length > width * 2 then "Wide (" ++ rLW ++ ":1 L:W)"
  else if width > length * 1.5 then "Deep (" ++ toFixed1Str (width / length) ++ ":1 W:L)"
  else if height > length * 0.8 then "Tall (" ++ rLH ++ ":1 L:H)"
  else if length > height * 2 then "Long (" ++ rLH ++ ":1 L:H)"
  else "Standard (" ++ rLW ++ ":1 L:W)"

/-- The result object pushed by findDimensions.  volumeGallons and
percentDifference are stored through toFixed(1) (see `toFixed1`);
volumeGallonsExact additionally records the exact gallons value the filter
compared, which the JS object only exposes pre-rounding inside the loop.
The aspect string field keeps the source property name. -/
structure DimensionResult where
  width : ℤ
  length : ℤ
  height : ℤ
  volumeGallons : ℚ
  percentDifference : ℚ
  aspectRatio : String
  footprint : ℤ
  depth : ℤ
  volumeGallonsExact : ℚ

/-- The deduplication key `width x length x height` of getUniqueResults;
the three integers determine the template string and vice versa. -/
def resultKey (r : DimensionResult) : ℤ × ℤ × ℤ := (r.width, r.length, r.height)

/-- Embedding of one iteration of the innermost findDimensions loop body:
the candidate pushed for (width, length, height), or none when the percent
difference exceeds the tolerance. -/
def candidateAt (targetVolumeGallons width length height : ℚ) : Option DimensionResult :=
  let volume := calculateVolume length width height
  let volumeGallons := volume * 0.264172
  let difference := |volumeGallons - targetVolumeGallons|
  let percentDifference := difference / targetVolumeGallons * 100
  if percentDifference ≤ tolerancePercent * 100 then
    some { width := jsRound width
           length := jsRound length
           height := jsRound height
           volumeGallons := toFixed1 volumeGallons
           percentDifference := toFixed1 percentDifference
           aspectRatio := getAspectRatio length width height
           footprint := jsRound (length * width)
           depth := jsRound height
           volumeGallonsExact := volumeGallons }
  else none

/-- The width enumeration of findDimensions. -/
def widthRange (c : Constraints) : List ℚ :=
  getDimensionRange minDimension (jsOrDefault c.maxWidth maxDimension)

/-- The length enumeration of findDimensions. -/
def lengthRange (c : Constraints) : List ℚ :=
  getDimensionRange minDimension (jsOrDefault c.maxLength maxDimension)

/-- The height enumeration of findDimensions (minimum 12, default maximum
60). -/
def heightRange (c : Constraints) : List ℚ :=
  getDimensionRange 12 (jsOrDefault c.maxHeight 60)

/-- The results array built by the triple loop of findDimensions, in push
order. -/
def candidates (targetVolumeGallons : ℚ) (c : Constraints) : List DimensionResult :=
  (widthRange c).flatMap fun width =>
    (lengthRange c).flatMap fun length =>
      (heightRange c).filterMap fun height =>
        candidateAt targetVolumeGallons width length height

/-- Embedding of the getUniqueResults loop: results are scanned in order,
a result whose key was already seen is skipped, otherwise it is appended,
and the loop breaks once the accumulated list reaches maxResults
entries. -/
def getUniqueResultsAux (maxResults : ℤ) :
    List DimensionResult → List (ℤ × ℤ × ℤ) → List DimensionResult → List DimensionResult
  | [], _, unique => unique
  | r :: rest, seen, unique =>
    if resultKey r ∈ seen then getUniqueResultsAux maxResults rest seen unique
    else
      let unique2 := unique ++ [r]
      if (unique2.length : ℤ) ≥ maxResults then unique2
      else getUniqueResultsAux maxResults rest (resultKey r :: seen) unique2

/-- Embedding of DimensionFinder.getUniqueResults.  The JS maxResults is a
number used only in the comparison `unique.length >= maxResults`; it is
embedded as an integer, covering every call in the repository. -/
def getUniqueResults (results : List DimensionResult) (maxResults : ℤ) : List DimensionResult :=
  getUniqueResultsAux maxResults results [] []

/-- Embedding of DimensionFinder.findDimensions: enumerate the grid, filter
by tolerance, sort ascending by the stored (display-rounded)
percentDifference with a stable sort as JS Array.prototype.sort is, and
deduplicate/truncate.  (The source also computes an unused local
targetLiters.) -/
def findDimensions (targetVolumeGallons : ℚ) (c : Constraints) (maxResults : ℤ) : List DimensionResult :=
  getUniqueResults
    ((candidates targetVolumeGallons c).mergeSort
      fun a b => decide (a.percentDifference ≤ b.percentDifference))
    maxResults

end DimensionFinder

/-! ### Specification-side definitions

These definitions follow the wording of the specification and of the
claims, to be compared with the source embeddings above. -/

namespace Spec

/-- Claim C3 base-thickness step table, written from the words of the claim:
3 if depth <= 12, 5 if depth <= 15, 6 if depth <= 24, 8 if depth <= 30,
10 if depth <= 36, else 12. -/
def specBaseThickness (depth : ℚ) : ℚ :=
  if depth ≤ 12 then 3
  else if depth ≤ 15 then 5
  else if depth ≤ 24 then 6
  else if depth ≤ 30 then 8
  else if depth ≤ 36 then 10
  else 12

/-- Claim C3 span penalty: add 2 when span > 48 plus another 2 when
span > 60, cumulatively. -/
def specSpanPenalty (span : ℚ) : ℚ :=
  (if span > 48 then 2 else 0) + (if span > 60 then 2 else 0)

/-- Specification lookup rule, from the words of the spec: a bound is
greater than or equal to the observed value (an Infinity bound accepts
everything). -/
def boundGe (bound : Option ℚ) (value : ℚ) : Prop :=
  match bound with
  | none => True
  | some b => value ≤ b

instance : (bound : Option ℚ) → (value : ℚ) → Decidable (boundGe bound value)
  | none, _ => inferInstanceAs (Decidable True)
  | some b, v => inferInstanceAs (Decidable (v ≤ b))

/-- Specification lookup rule: scan bands in order and return the first
band whose bound is greater than or equal to the observed value. -/
def specScan : List Equipment.Band → ℚ → Option Equipment.Band
  | [], _ => none
  | b :: rest, v => if boundGe b.bound v then some b else specScan rest v

/-- Specification lookup rule, text result: the text of the first matching band;
if none match, use the last band. -/
def specFirstBandText (bands : List Equipment.Band) (value : ℚ) : String :=
  match specScan bands value with
  | some b => b.recommendation
  | none => Equipment.lastText bands

/-- Claim C9 fallback label as amended: when the step-function thickness
matches no table row, the label is the 10mm row description if the span
exceeds 60 (the getRecommendation override raises the thickness to at
least 10 there) and otherwise the highest-thickness description. -/
def specNoRowFallback (span : ℚ) : String :=
  if span > 60 then "10mm (large tanks)" else "12mm+ (extra large tanks)"

/-- Reading a located table row: its description, or the amended fallback
when the lookup found nothing. -/
def describeRow (found : Option GlassRecommender.GlassRow) (span : ℚ) : String :=
  match found with
  | some row => row.description
  | none => specNoRowFallback span

/-- Claim C2 guarantees for the result of findDimensions, as amended:
the computed gallons value of every returned candidate is within the 10%
tolerance of the target, the list has at most maxResults entries (for
maxResults >= 1), no two entries share a rounded (width, length, height)
triple, and the result is the empty list when no enumerated triple is
within tolerance. -/
def findDimensionsGuarantees (t : ℚ) (c : DimensionFinder.Constraints) (m : ℤ) : Prop :=
  (∀ r ∈ DimensionFinder.findDimensions t c m,
      |DimensionFinder.DimensionResult.volumeGallonsExact r - t| ≤ t / 10) ∧
  ((DimensionFinder.findDimensions t c m).length : ℤ) ≤ m ∧
  ((DimensionFinder.findDimensions t c m).map DimensionFinder.resultKey).Nodup ∧
  ((∀ w ∈ DimensionFinder.widthRange c, ∀ le ∈ DimensionFinder.lengthRange c,
      ∀ he ∈ DimensionFinder.heightRange c,
      DimensionFinder.candidateAt t w le he = none) →
    DimensionFinder.findDimensions t c m = [])

/-- Claim C9 labelling rule as amended: the description of the table row
whose thickness equals the step-function value, with `specNoRowFallback`
when no row matches. -/
def specLabelAmended (length width height : ℚ) : String :=
  describeRow
    (GlassRecommender.findRowByThickness GlassRecommender.recommendations
      (GlassRecommender.getThicknessForDimensions height (max length width)))
    (max length width)

end Spec

/-! ### Helper lemmas about the embedded definitions -/

namespace DimensionFinder

theorem getDimensionRangeAux_of_not_le {n : ℕ} {c mx : ℚ} (h : ¬ c ≤ mx) :
    getDimensionRangeAux n c mx = [] := by
  cases n <;> simp [getDimensionRangeAux, h]

theorem rangeFuel_pos (c mx : ℚ) : 1 ≤ rangeFuel c mx := by
  simp [rangeFuel]

theorem rangeStep_cases (c : ℚ) : rangeStep c = 2 ∨ rangeStep c = 4 ∨ rangeStep c = 6 := by
  unfold rangeStep
  split_ifs <;> simp

theorem rangeFuel_step_le {c mx : ℚ} (hc' : c + rangeStep c ≤ mx) :
    rangeFuel (c + rangeStep c) mx + 1 ≤ rangeFuel c mx := by
  have hstep : ∃ s : ℤ, 2 ≤ s ∧ rangeStep c = (s : ℚ) := by
    rcases rangeStep_cases c with h | h | h
    · exact ⟨2, by norm_num, by rw [h]; norm_num⟩
    · exact ⟨4, by norm_num, by rw [h]; norm_num⟩
    · exact ⟨6, by norm_num, by rw [h]; norm_num⟩
  obtain ⟨s, hs2, hs⟩ := hstep
  have hsub : mx - (c + rangeStep c) = (mx - c) - (s : ℚ) := by rw [hs]; ring
  have hceil : ⌈mx - (c + rangeStep c)⌉ = ⌈mx - c⌉ - s := by
    rw [hsub, Int.ceil_sub_int]
  have hK : (s : ℤ) ≤ ⌈mx - c⌉ := by
    have h1 : (s : ℚ) ≤ mx - c := by
      have := hc'
      rw [hs] at this
      linarith
    have h2 : (mx - c : ℚ) ≤ (⌈mx - c⌉ : ℚ) := Int.le_ceil _
    exact_mod_cast h1.trans h2
  unfold rangeFuel
  rw [hceil]
  omega

theorem getDimensionRangeAux_congr :
    ∀ (n₁ : ℕ) {n₂ : ℕ} {c mx : ℚ}, rangeFuel c mx ≤ n₁ → rangeFuel c mx ≤ n₂ →
      getDimensionRangeAux n₁ c mx = getDimensionRangeAux n₂ c mx := by
  intro n₁
  induction n₁ with
  | zero =>
    intro n₂ c mx h1 _
    exact absurd (le_trans (rangeFuel_pos c mx) h1) (by norm_num)
  | succ k ih =>
    intro n₂ c mx h1 h2
    match n₂ with
    | 0 => exact absurd (le_trans (rangeFuel_pos c mx) h2) (by norm_num)
    | j + 1 =>
      by_cases hc : c ≤ mx
      · simp only [getDimensionRangeAux, if_pos hc]
        by_cases hc' : c + rangeStep c ≤ mx
        · have hkey := rangeFuel_step_le hc'
          congr 1
          exact ih (by omega) (by omega)
        · rw [getDimensionRangeAux_of_not_le hc', getDimensionRangeAux_of_not_le hc']
      · simp only [getDimensionRangeAux, if_neg hc]

/-- The fueled embedding satisfies exactly the defining equation of the
getDimensionRange while loop, so the chosen fuel is sufficient. -/
theorem getDimensionRange_eq (c mx : ℚ) :
    getDimensionRange c mx =
      if c ≤ mx then c :: getDimensionRange (c + rangeStep c) mx else [] := by
  by_cases hc : c ≤ mx
  · rw [if_pos hc]
    show getDimensionRangeAux ((⌈mx - c⌉).toNat + 1) c mx = _
    simp only [getDimensionRangeAux, if_pos hc]
    congr 1
    by_cases hc' : c + rangeStep c ≤ mx
    · have hkey := rangeFuel_step_le (c := c) hc'
      have h1 : rangeFuel c mx = (⌈mx - c⌉).toNat + 1 := rfl
      exact getDimensionRangeAux_congr _ (by omega) le_rfl
    · rw [getDimensionRangeAux_of_not_le hc',
        show getDimensionRange (c + rangeStep c) mx =
          getDimensionRangeAux (rangeFuel (c + rangeStep c) mx) (c + rangeStep c) mx from rfl,
        getDimensionRangeAux_of_not_le hc']
  · rw [if_neg hc]
    exact getDimensionRangeAux_of_not_le hc

theorem getDimensionRange_cons {c mx : ℚ} (h : c ≤ mx) :
    getDimensionRange c mx = c :: getDimensionRange (c + rangeStep c) mx := by
  rw [getDimensionRange_eq, if_pos h]

theorem getDimensionRange_nil {c mx : ℚ} (h : ¬ c ≤ mx) :
    getDimensionRange c mx = [] := by
  rw [getDimensionRange_eq, if_neg h]

theorem jsRound_eq_iff {q : ℚ} {z : ℤ} : jsRound q = z ↔ (z : ℚ) ≤ q + 1 / 2 ∧ q + 1 / 2 < z + 1 := by
  unfold jsRound
  rw [Int.floor_eq_iff]

/-- The default width/length grid: steps of 2 below 24, 4 up to 48, 6
beyond; it skips 26, 30, 34, ... -/
theorem grid_10_120 :
    getDimensionRange (10:ℚ) 120 =
      [10, 12, 14, 16, 18, 20, 22, 24, 28, 32, 36, 40, 44,
       48, 54, 60, 66, 72, 78, 84, 90, 96, 102, 108, 114, 120] := by
  norm_num [getDimensionRange_cons, getDimensionRange_nil, rangeStep]

/-- The default height grid. -/
theorem grid_12_60 :
    getDimensionRange (12:ℚ) 60 =
      [12, 14, 16, 18, 20, 22, 24, 28, 32, 36, 40, 44, 48, 54, 60] := by
  norm_num [getDimensionRange_cons, getDimensionRange_nil, rangeStep]

/-- No value of the default width/length grid rounds to 30. -/
theorem grid_10_120_ne_30 : ∀ w ∈ getDimensionRange (10:ℚ) 120, jsRound w ≠ 30 := by
  rw [grid_10_120]
  intro w hw
  fin_cases hw <;> · simp only [Ne, jsRound_eq_iff]; norm_num

/-- No value of the default height grid rounds to 30. -/
theorem grid_12_60_ne_30 : ∀ w ∈ getDimensionRange (12:ℚ) 60, jsRound w ≠ 30 := by
  rw [grid_12_60]
  intro w hw
  fin_cases hw <;> · simp only [Ne, jsRound_eq_iff]; norm_num

theorem widthRange_default : widthRange {} = getDimensionRange 10 120 := by
  norm_num [widthRange, jsOrDefault, minDimension, maxDimension]

theorem lengthRange_default : lengthRange {} = getDimensionRange 10 120 := by
  norm_num [lengthRange, jsOrDefault, minDimension, maxDimension]

theorem heightRange_default : heightRange {} = getDimensionRange 12 60 := by
  norm_num [heightRange, jsOrDefault]

theorem getUniqueResultsAux_subset {m : ℤ} {r : DimensionResult} :
    ∀ {l : List DimensionResult} {seen : List (ℤ × ℤ × ℤ)} {u : List DimensionResult},
      r ∈ getUniqueResultsAux m l seen u → r ∈ u ∨ r ∈ l := by
  intro l
  induction l with
  | nil =>
    intro seen u h
    exact Or.inl h
  | cons a rest ih =>
    intro seen u h
    simp only [getUniqueResultsAux] at h
    split at h
    · rcases ih h with h1 | h1
      · exact Or.inl h1
      · exact Or.inr (List.mem_cons_of_mem _ h1)
    · split at h
      · rcases List.mem_append.mp h with h1 | h1
        · exact Or.inl h1
        · exact Or.inr (List.mem_cons.mpr (Or.inl (List.mem_singleton.mp h1)))
      · rcases ih h with h1 | h1
        · rcases List.mem_append.mp h1 with h2 | h2
          · exact Or.inl h2
          · exact Or.inr (List.mem_cons.mpr (Or.inl (List.mem_singleton.mp h2)))
        · exact Or.inr (List.mem_cons_of_mem _ h1)

theorem getUniqueResultsAux_length {m : ℤ} :
    ∀ {l : List DimensionResult} {seen : List (ℤ × ℤ × ℤ)} {u : List DimensionResult},
      (u.length : ℤ) < m → ((getUniqueResultsAux m l seen u).length : ℤ) ≤ m := by
  intro l
  induction l with
  | nil =>
    intro seen u hu
    exact le_of_lt hu
  | cons a rest ih =>
    intro seen u hu
    simp only [getUniqueResultsAux]
    split
    · exact ih hu
    · split
      · simp only [List.length_append, List.length_singleton]
        push_cast
        omega
      · rename_i hlen
        apply ih
        simp only [List.length_append, List.length_singleton] at hlen ⊢
        push_cast at hlen ⊢
        omega

theorem getUniqueResultsAux_nodup {m : ℤ} :
    ∀ {l : List DimensionResult} {seen : List (ℤ × ℤ × ℤ)} {u : List DimensionResult},
      (u.map resultKey).Nodup → (∀ k ∈ u.map resultKey, k ∈ seen) →
      ((getUniqueResultsAux m l seen u).map resultKey).Nodup := by
  intro l
  induction l with
  | nil =>
    intro seen u hnd _
    exact hnd
  | cons a rest ih =>
    intro seen u hnd hsub
    simp only [getUniqueResultsAux]
    split
    · exact ih hnd hsub
    · rename_i hnotseen
      have hnotu : resultKey a ∉ u.map resultKey := fun hmem => hnotseen (hsub _ hmem)
      have hnd2 : ((u ++ [a]).map resultKey).Nodup := by
        simp only [List.map_append, List.map_singleton]
        simp [List.nodup_append, hnd, hnotu]
      split
      · exact hnd2
      · apply ih hnd2
        intro k hk
        simp only [List.map_append, List.map_singleton, List.mem_append,
          List.mem_singleton] at hk
        rcases hk with hk | hk
        · exact List.mem_cons_of_mem _ (hsub _ hk)
        · exact List.mem_cons.mpr (Or.inl hk)

theorem candidateAt_eq_some {t w l h : ℚ} {r : DimensionResult}
    (hr : candidateAt t w l h = some r) :
    r.width = jsRound w ∧ r.length = jsRound l ∧ r.height = jsRound h ∧
    r.volumeGallonsExact = calculateVolume l w h * 0.264172 ∧
    |r.volumeGallonsExact - t| / t * 100 ≤ 10 := by
  simp only [candidateAt] at hr
  split at hr
  · rename_i hcond
    rw [Option.some.injEq] at hr
    subst hr
    refine ⟨rfl, rfl, rfl, rfl, ?_⟩
    have h10 : tolerancePercent * 100 = 10 := by norm_num [tolerancePercent]
    rwa [h10] at hcond
  · exact absurd hr (by simp)

theorem mem_findDimensions {t : ℚ} {c : Constraints} {m : ℤ} {r : DimensionResult}
    (h : r ∈ findDimensions t c m) :
    ∃ w ∈ widthRange c, ∃ le ∈ lengthRange c, ∃ he ∈ heightRange c,
      candidateAt t w le he = some r := by
  unfold findDimensions getUniqueResults at h
  rcases getUniqueResultsAux_subset h with h1 | h1
  · cases h1
  · rw [List.mem_mergeSort] at h1
    simpa [candidates, List.mem_flatMap, List.mem_filterMap] using h1

end DimensionFinder

namespace Equipment

theorem jsOrNum_of_ne {x d : ℚ} (h : x ≠ 0) : jsOrNum x d = x := by
  simp [jsOrNum, h]

theorem jsOrNum_zero (d : ℚ) : jsOrNum 0 d = d := by
  simp [jsOrNum]

/-- On a numeric criteria value, the source comparison coincides with the
spec lookup rule. -/
theorem jsLe_num_iff_boundGe (q : ℚ) (bound : Option ℚ) :
    jsLe (.num q) bound ↔ Spec.boundGe bound q := by
  cases bound <;> simp [jsLe, Spec.boundGe]

theorem findBand_num_eq_specScan (bands : List Band) (q : ℚ) :
    findBand bands (.num q) = Spec.specScan bands q := by
  induction bands with
  | nil => rfl
  | cons b rest ih =>
    simp only [findBand, Spec.specScan]
    by_cases hb : Spec.boundGe b.bound q
    · rw [if_pos ((jsLe_num_iff_boundGe q b.bound).mpr hb), if_pos hb]
    · rw [if_neg (fun hc => hb ((jsLe_num_iff_boundGe q b.bound).mp hc)), if_neg hb, ih]

/-- The generic strategy lookup on a number computes exactly the specified
first-matching-band text. -/
theorem getRecommendationCore_num (bands : List Band) (q : ℚ) :
    getRecommendationCore bands (.num q) = Spec.specFirstBandText bands q := by
  unfold getRecommendationCore Spec.specFirstBandText
  rw [findBand_num_eq_specScan]

/-- A string criteria value fails every band comparison (NaN semantics). -/
theorem findBand_str (bands : List Band) (s : String) :
    findBand bands (.str s) = none := by
  induction bands with
  | nil => rfl
  | cons b rest ih => simpa [findBand, jsLe] using ih

/-- The filter strategy discards the extractor string and always falls
back to the last band of its table. -/
theorem getFilterRecommendation_eq_last (volumeGallons topSqFt : ℚ) :
    getFilterRecommendation volumeGallons topSqFt =
      "200+ GPH canister filter or sump system" := by
  unfold getFilterRecommendation getRecommendationCore
  rw [findBand_str]
  rfl

theorem specScan_mem {bands : List Band} {v : ℚ} {b : Band}
    (h : Spec.specScan bands v = some b) : b ∈ bands := by
  induction bands with
  | nil => cases h
  | cons x rest ih =>
    simp only [Spec.specScan] at h
    split at h
    · rw [Option.some.injEq] at h
      exact h ▸ List.mem_cons_self _ _
    · exact List.mem_cons_of_mem _ (ih h)

theorem lastText_mem {bands : List Band} (h : bands ≠ []) :
    ∃ b ∈ bands, lastText bands = b.recommendation := by
  unfold lastText
  cases hl : bands.getLast? with
  | none => exact absurd (List.getLast?_eq_none_iff.mp hl) h
  | some b => exact ⟨b, List.mem_of_getLast?_eq_some hl, rfl⟩

/-- The spec lookup always yields the text of some band of a non-empty
table. -/
theorem specFirstBandText_mem {bands : List Band} (h : bands ≠ []) (v : ℚ) :
    ∃ b ∈ bands, Spec.specFirstBandText bands v = b.recommendation := by
  unfold Spec.specFirstBandText
  cases hs : Spec.specScan bands v with
  | none => exact lastText_mem h
  | some b => exact ⟨b, specScan_mem hs, rfl⟩

/-- The spec lookup on a table of non-placeholder texts never yields the
placeholder. -/
theorem specFirstBandText_ne_placeholder {bands : List Band}
    (hne : bands ≠ []) (h : ∀ b ∈ bands, b.recommendation ≠ "--") (v : ℚ) :
    Spec.specFirstBandText bands v ≠ "--" := by
  rcases specFirstBandText_mem hne v with ⟨b, hb, he⟩
  rw [he]
  exact h b hb

/-- The dimensions strategy is the spec band text plus the advisory suffix
exactly when length > 1.5 x width. -/
theorem getDimensionsRecommendation_eq (bands : List Band) (v length width : ℚ) :
    getDimensionsRecommendation bands v length width =
      Spec.specFirstBandText bands v ++
        (if length > 1.5 * width then
          " - consider multiple units for even flow in long tanks"
        else "") := by
  unfold getDimensionsRecommendation
  rw [findBand_num_eq_specScan]
  have hcond : (length > width * 1.5) = (length > 1.5 * width) := by rw [mul_comm]
  by_cases hlw : length > 1.5 * width
  · rw [if_pos (by rw [hcond]; exact hlw), if_pos hlw]
    rfl
  · rw [if_neg (by rw [hcond]; exact hlw), if_neg hlw]
    unfold Spec.specFirstBandText
    simp

end Equipment

namespace GlassRecommender

/-- With a span over 60 both penalties fire, so the capped thickness is one
of 7, 9, 10, 12. -/
theorem thickness_cases_of_span_gt60 {depth span : ℚ} (hspan : span > 60) :
    getThicknessForDimensions depth span = 7 ∨ getThicknessForDimensions depth span = 9 ∨
    getThicknessForDimensions depth span = 10 ∨ getThicknessForDimensions depth span = 12 := by
  have h48 : span > 48 := by linarith
  simp only [getThicknessForDimensions, if_pos h48, if_pos hspan]
  split_ifs <;> norm_num [min_def]

theorem findRowByThickness_seven :
    findRowByThickness recommendations 7 = none := by
  norm_num [findRowByThickness, recommendations]

theorem findRowByThickness_nine :
    findRowByThickness recommendations 9 = none := by
  norm_num [findRowByThickness, recommendations]

theorem findRowByThickness_ten :
    findRowByThickness recommendations 10 = some ⟨36, some 400, 10, "10mm (large tanks)"⟩ := by
  norm_num [findRowByThickness, recommendations]

theorem findRowByThickness_twelve :
    findRowByThickness recommendations 12 = some ⟨48, none, 12, "12mm+ (extra large tanks)"⟩ := by
  norm_num [findRowByThickness, recommendations]

end GlassRecommender

/-! ### Claim theorems -/

/-- Claim C1: for every positive finite length, width, height in inches,
TankCalculator.calculateVolume returns exactly
(length * 2.54) * (width * 2.54) * (height * 2.54) / 1000 liters;
calculateVolume(48,24,24) is approximately 453.1 liters (within 0.05) and
convertToGallons of that result is approximately 119.7 gallons (within
0.05). -/
theorem c1_calculateVolume_formula :
    (∀ l w h : ℚ, 0 < l → 0 < w → 0 < h →
      TankCalculator.calculateVolume l w h = l * 2.54 * (w * 2.54) * (h * 2.54) / 1000) ∧
    |TankCalculator.calculateVolume 48 24 24 - 453.1| < 0.05 ∧
    |TankCalculator.convertToGallons (TankCalculator.calculateVolume 48 24 24) - 119.7| < 0.05 := by
  refine ⟨fun l w h _ _ _ => rfl, ?_, ?_⟩
  · rw [abs_lt]
    constructor <;> norm_num [TankCalculator.calculateVolume, INCHES_TO_CM]
  · rw [abs_lt]
    constructor <;>
      norm_num [TankCalculator.calculateVolume, TankCalculator.convertToGallons,
        INCHES_TO_CM, GALLONS_TO_LITERS]

/-- Witness for C1: the formula instantiated at the 48 x 24 x 24 tank. -/
theorem c1_calculateVolume_formula_witness :
    (0:ℚ) < 48 ∧ (0:ℚ) < 24 ∧
    TankCalculator.calculateVolume 48 24 24 = 48 * 2.54 * (24 * 2.54) * (24 * 2.54) / 1000 :=
  ⟨by norm_num, by norm_num,
    c1_calculateVolume_formula.1 48 24 24 (by norm_num) (by norm_num) (by norm_num)⟩

/-- Claim C3: getThicknessForDimensions(depth, span) is
min(base + penalties, 12) with the claimed step table and cumulative span
penalties; at depth 36 and span 72 it is 14 capped to 12, labelled
"12mm+ (extra large tanks)" by getRecommendation, with the
professional-consultation safety note. -/
theorem c3_thickness_step_function :
    (∀ depth span : ℚ,
      GlassRecommender.getThicknessForDimensions depth span =
        min (Spec.specBaseThickness depth + Spec.specSpanPenalty span) 12) ∧
    GlassRecommender.getThicknessForDimensions 36 72 = 12 ∧
    GlassRecommender.getRecommendation 72 36 36 = "12mm+ (extra large tanks)" ∧
    GlassRecommender.detailedSafetyNote 72 36 36 =
      GlassRecommender.professionalConsultationNote := by
  refine ⟨?_, ?_, ?_, ?_⟩
  · intro depth span
    simp only [GlassRecommender.getThicknessForDimensions, Spec.specBaseThickness,
      Spec.specSpanPenalty]
    split_ifs <;> norm_num
  · norm_num [GlassRecommender.getThicknessForDimensions, min_def]
  · have hmax : max (72:ℚ) 36 = 72 := max_eq_left (by norm_num)
    simp only [GlassRecommender.getRecommendation, hmax]
    rw [if_pos (show (72:ℚ) > 60 by norm_num),
      show GlassRecommender.getThicknessForDimensions 36 72 = 12 from by
        norm_num [GlassRecommender.getThicknessForDimensions, min_def],
      show max (12:ℚ) 10 = 12 from max_eq_left (by norm_num),
      GlassRecommender.findRowByThickness_twelve]
  · simp only [GlassRecommender.detailedSafetyNote]
    rw [if_pos (Or.inr (show max (72:ℚ) 36 > 60 by
        rw [max_eq_left (by norm_num : (36:ℚ) ≤ 72)]; norm_num))]

/-- Witness for C3: the step function instantiated at depth 20, span 48. -/
theorem c3_thickness_step_function_witness :
    GlassRecommender.getThicknessForDimensions 20 48 =
      min (Spec.specBaseThickness 20 + Spec.specSpanPenalty 48) 12 :=
  c3_thickness_step_function.1 20 48

/-- Claim C5 counterexample: the round trip
convertToGallons(convertToLiters(1)) is exactly 1 (the source divides by
the same 0.264172 constant it multiplies with), contradicting the claim
that no nonzero input round-trips exactly. -/
theorem c5_roundtrip_counterexample :
    TankCalculator.convertToGallons (TankCalculator.convertToLiters 1) = 1 ∧
    GALLONS_TO_LITERS * LITERS_TO_GALLONS ≠ 1 := by
  constructor
  · norm_num [TankCalculator.convertToGallons, TankCalculator.convertToLiters,
      GALLONS_TO_LITERS]
  · norm_num [GALLONS_TO_LITERS, LITERS_TO_GALLONS]

/-- Claim C5 as amended: the two constants 0.264172 and 3.78541 are indeed
declared and are not exact reciprocals (their product is 0.99999933052),
but convertToLiters divides by GALLONS_TO_LITERS instead of multiplying by
LITERS_TO_GALLONS, so the round trip is exact for every input. -/
theorem c5_roundtrip_amended :
    (∀ g : ℚ, TankCalculator.convertToGallons (TankCalculator.convertToLiters g) = g) ∧
    GALLONS_TO_LITERS * LITERS_TO_GALLONS = 0.99999933052 ∧
    GALLONS_TO_LITERS * LITERS_TO_GALLONS ≠ 1 := by
  refine ⟨fun g => ?_, ?_, ?_⟩
  · unfold TankCalculator.convertToGallons TankCalculator.convertToLiters
    rw [div_mul_cancel₀]
    norm_num [GALLONS_TO_LITERS]
  · norm_num [GALLONS_TO_LITERS, LITERS_TO_GALLONS]
  · norm_num [GALLONS_TO_LITERS, LITERS_TO_GALLONS]

/-- Claim C8 (code bug): the filter recommendation should be the volume
band text with the area-based override/suffix rules, and the installed
extractor computes exactly that composite text, but the generic strategy
then compares this STRING against the numeric bounds (always false under
NaN coercion) and falls back to the terminal band, discarding the
composite: at volume 10 gallons and top area 1 sq ft the intended override
is the sponge-filter text while the code returns the 200+ GPH text. -/
theorem c8_filter_composite_discarded :
    Equipment.getFilterRecommendation 10 1 = "200+ GPH canister filter or sump system" ∧
    Equipment.filterExtractorText 10 1 =
      "5-10 GPH sponge filter ideal for shallow tanks with small surface area" ∧
    ("200+ GPH canister filter or sump system" : String) ≠
      "5-10 GPH sponge filter ideal for shallow tanks with small surface area" := by
  refine ⟨Equipment.getFilterRecommendation_eq_last 10 1, ?_, by decide⟩
  unfold Equipment.filterExtractorText
  rw [if_pos (by norm_num : (1:ℚ) < 1.5 ∧ (10:ℚ) < 20)]

/-- Claim C9 counterexample: at length 72, width 10, height 10 the
step-function thickness is 7, which matches no table row, yet the label is
"10mm (large tanks)" rather than the claimed fallback
"12mm+ (extra large tanks)", because getRecommendation first raises the
thickness to max(t, 10) for panels over 60. -/
theorem c9_fallback_counterexample :
    GlassRecommender.getThicknessForDimensions 10 (max 72 10) = 7 ∧
    GlassRecommender.findRowByThickness GlassRecommender.recommendations 7 = none ∧
    GlassRecommender.getRecommendation 72 10 10 = "10mm (large tanks)" ∧
    ("10mm (large tanks)" : String) ≠ "12mm+ (extra large tanks)" := by
  have hmax : max (72:ℚ) 10 = 72 := max_eq_left (by norm_num)
  refine ⟨?_, GlassRecommender.findRowByThickness_seven, ?_, by decide⟩
  · rw [hmax]
    norm_num [GlassRecommender.getThicknessForDimensions, min_def]
  · simp only [GlassRecommender.getRecommendation, hmax]
    rw [if_pos (show (72:ℚ) > 60 by norm_num),
      show GlassRecommender.getThicknessForDimensions 10 72 = 7 from by
        norm_num [GlassRecommender.getThicknessForDimensions, min_def],
      show max (7:ℚ) 10 = 10 from max_eq_right (by norm_num),
      GlassRecommender.findRowByThickness_ten]

/-- Claim C9 as amended: for every (length, width, height) the label of
getRecommendation is the description of the table row whose thickness
equals the step-function value getThicknessForDimensions(height,
max(length, width)) whenever such a row exists; when the value matches no
row, the label is the 10mm description if the span exceeds 60 (the
override raises the thickness to at least 10) and the highest-thickness
description otherwise. -/
theorem c9_label_agreement_amended (l w h : ℚ) :
    GlassRecommender.getRecommendation l w h = Spec.specLabelAmended l w h := by
  simp only [GlassRecommender.getRecommendation, Spec.specLabelAmended]
  by_cases hspan : max l w > 60
  · rw [if_pos hspan]
    rcases @GlassRecommender.thickness_cases_of_span_gt60 h (max l w) hspan
      with ht | ht | ht | ht <;> rw [ht]
    · rw [show max (7:ℚ) 10 = 10 from max_eq_right (by norm_num),
        GlassRecommender.findRowByThickness_ten, GlassRecommender.findRowByThickness_seven]
      simp only [Spec.describeRow, Spec.specNoRowFallback]
      rw [if_pos hspan]
    · rw [show max (9:ℚ) 10 = 10 from max_eq_right (by norm_num),
        GlassRecommender.findRowByThickness_ten, GlassRecommender.findRowByThickness_nine]
      simp only [Spec.describeRow, Spec.specNoRowFallback]
      rw [if_pos hspan]
    · rw [show max (10:ℚ) 10 = 10 from max_eq_right (by norm_num),
        GlassRecommender.findRowByThickness_ten]
      rfl
    · rw [show max (12:ℚ) 10 = 12 from max_eq_left (by norm_num),
        GlassRecommender.findRowByThickness_twelve]
      rfl
  · rw [if_neg hspan]
    cases hfind : GlassRecommender.findRowByThickness GlassRecommender.recommendations
        (GlassRecommender.getThicknessForDimensions h (max l w)) with
    | some row => rfl
    | none =>
      simp only [Spec.describeRow, Spec.specNoRowFallback]
      rw [if_neg hspan]
      rfl

/-- Witness for C9 as amended: instantiated at a 48 x 12 x 20 tank. -/
theorem c9_label_agreement_amended_witness :
    GlassRecommender.getRecommendation 48 12 20 = Spec.specLabelAmended 48 12 20 :=
  c9_label_agreement_amended 48 12 20

/-- Claim C6: for volume >= 0 and positive length and width, the
circulationPump entry of getAllRecommendations carries the multiple-units
advisory suffix exactly when length > 1.5 x width, and is the plain
volume-band text otherwise. -/
theorem c6_circulation_pump_suffix (l w h v a : ℚ)
    (_hv : 0 ≤ v) (_hl : 0 < l) (_hw : 0 < w) :
    (Equipment.getAllRecommendations l w h v a).circulationPump =
      Spec.specFirstBandText Equipment.circulationPumpBands v ++
        (if l > 1.5 * w then " - consider multiple units for even flow in long tanks"
         else "") := by
  simp only [Equipment.getAllRecommendations, Equipment.getCirculationPumpRecommendation]
  exact Equipment.getDimensionsRecommendation_eq _ _ _ _

/-- Witness for C6: an elongated 48 x 12 tank at 50 gallons. -/
theorem c6_circulation_pump_suffix_witness :
    (0:ℚ) ≤ 50 ∧ (0:ℚ) < 48 ∧ (0:ℚ) < 12 ∧
    (Equipment.getAllRecommendations 48 12 24 50 4).circulationPump =
      Spec.specFirstBandText Equipment.circulationPumpBands 50 ++
        (if (48:ℚ) > 1.5 * 12 then " - consider multiple units for even flow in long tanks"
         else "") :=
  ⟨by norm_num, by norm_num, by norm_num,
    c6_circulation_pump_suffix 48 12 24 50 4 (by norm_num) (by norm_num) (by norm_num)⟩

/-- Claim C4 counterexample: the filter category does NOT return the text
of the first band whose bound covers the volume: at volume 5 gallons
(top area 2 sq ft) the first covering band says 10-20 GPH, but the code
returns the terminal 200+ GPH text, because the filter extractor string
output fails every numeric band comparison. -/
theorem c4_first_band_counterexample :
    Equipment.getFilterRecommendation 5 2 = "200+ GPH canister filter or sump system" ∧
    Spec.specFirstBandText Equipment.filterBands 5 = "10-20 GPH canister or small HOB filter" ∧
    ("200+ GPH canister filter or sump system" : String) ≠
      "10-20 GPH canister or small HOB filter" := by
  refine ⟨Equipment.getFilterRecommendation_eq_last 5 2, ?_, by decide⟩
  norm_num [Spec.specFirstBandText, Spec.specScan, Spec.boundGe, Equipment.filterBands]

/-- Claim C4 as amended: for every volume >= 0 (criteria derived as in
getAllRecommendations), the heater, chiller, thermometer, uvSterilizer,
airPump and ato entries equal the first band whose bound covers the
observed criterion; the circulationPump entry is that text plus the
optional elongation suffix; the filter entry is always the terminal
text of the catch-all band (its extractor yields a string, see C8); every entry
is a non-placeholder string, never the -- sentinel; and the heater
strategy at 50 gallons returns "200-300W submersible heater". -/
theorem c4_band_lookup_amended (length width height volumeGallons topSqFt : ℚ)
    (_hv : 0 ≤ volumeGallons) :
    ((Equipment.getAllRecommendations length width height volumeGallons topSqFt).heater =
        Spec.specFirstBandText Equipment.heaterBands volumeGallons ∧
      (Equipment.getAllRecommendations length width height volumeGallons topSqFt).heater ≠ "--") ∧
    ((Equipment.getAllRecommendations length width height volumeGallons topSqFt).chiller =
        Spec.specFirstBandText Equipment.chillerBands volumeGallons ∧
      (Equipment.getAllRecommendations length width height volumeGallons topSqFt).chiller ≠ "--") ∧
    ((Equipment.getAllRecommendations length width height volumeGallons topSqFt).thermometer =
        Spec.specFirstBandText Equipment.thermometerBands volumeGallons ∧
      (Equipment.getAllRecommendations length width height volumeGallons topSqFt).thermometer ≠ "--") ∧
    ((Equipment.getAllRecommendations length width height volumeGallons topSqFt).uvSterilizer =
        Spec.specFirstBandText Equipment.uvBands
          (Equipment.jsOrNum (Equipment.jsOrNum
            (Equipment.estimateFilterFlow volumeGallons) 300) 300) ∧
      (Equipment.getAllRecommendations length width height volumeGallons topSqFt).uvSterilizer ≠ "--") ∧
    ((Equipment.getAllRecommendations length width height volumeGallons topSqFt).airPump =
        Spec.specFirstBandText Equipment.airPumpBands (Equipment.jsOrNum topSqFt 0) ∧
      (Equipment.getAllRecommendations length width height volumeGallons topSqFt).airPump ≠ "--") ∧
    ((Equipment.getAllRecommendations length width height volumeGallons topSqFt).ato =
        Spec.specFirstBandText Equipment.atoBands (Equipment.jsOrNum topSqFt 0) ∧
      (Equipment.getAllRecommendations length width height volumeGallons topSqFt).ato ≠ "--") ∧
    ((Equipment.getAllRecommendations length width height volumeGallons topSqFt).circulationPump =
        Spec.specFirstBandText Equipment.circulationPumpBands volumeGallons ++
          (if length > 1.5 * width then
            " - consider multiple units for even flow in long tanks" else "") ∧
      (Equipment.getAllRecommendations length width height volumeGallons topSqFt).circulationPump ≠ "--") ∧
    ((Equipment.getAllRecommendations length width height volumeGallons topSqFt).filter =
        "200+ GPH canister filter or sump system" ∧
      (Equipment.getAllRecommendations length width height volumeGallons topSqFt).filter ≠ "--") ∧
    Equipment.getHeaterRecommendation 50 = "200-300W submersible heater" := by
  simp only [Equipment.getAllRecommendations, Equipment.getHeaterRecommendation,
    Equipment.getChillerRecommendation, Equipment.getThermometerRecommendation,
    Equipment.getUVSterilizerRecommendation, Equipment.getAirPumpRecommendation,
    Equipment.getATORcommendation, Equipment.getCirculationPumpRecommendation]
  refine ⟨⟨Equipment.getRecommendationCore_num _ _, ?_⟩,
    ⟨Equipment.getRecommendationCore_num _ _, ?_⟩,
    ⟨Equipment.getRecommendationCore_num _ _, ?_⟩,
    ⟨Equipment.getRecommendationCore_num _ _, ?_⟩,
    ⟨Equipment.getRecommendationCore_num _ _, ?_⟩,
    ⟨Equipment.getRecommendationCore_num _ _, ?_⟩,
    ⟨Equipment.getDimensionsRecommendation_eq _ _ _ _, ?_⟩,
    ⟨Equipment.getFilterRecommendation_eq_last _ _, ?_⟩,
    ?_⟩
  · rw [Equipment.getRecommendationCore_num]
    exact Equipment.specFirstBandText_ne_placeholder (by simp [Equipment.heaterBands])
      (by decide) _
  · rw [Equipment.getRecommendationCore_num]
    exact Equipment.specFirstBandText_ne_placeholder (by simp [Equipment.chillerBands])
      (by decide) _
  · rw [Equipment.getRecommendationCore_num]
    exact Equipment.specFirstBandText_ne_placeholder (by simp [Equipment.thermometerBands])
      (by decide) _
  · rw [Equipment.getRecommendationCore_num]
    exact Equipment.specFirstBandText_ne_placeholder (by simp [Equipment.uvBands])
      (by decide) _
  · rw [Equipment.getRecommendationCore_num]
    exact Equipment.specFirstBandText_ne_placeholder (by simp [Equipment.airPumpBands])
      (by decide) _
  · rw [Equipment.getRecommendationCore_num]
    exact Equipment.specFirstBandText_ne_placeholder (by simp [Equipment.atoBands])
      (by decide) _
  · rw [Equipment.getDimensionsRecommendation_eq]
    rcases Equipment.specFirstBandText_mem
        (by simp [Equipment.circulationPumpBands] : Equipment.circulationPumpBands ≠ [])
        volumeGallons with ⟨b, hb, he⟩
    rw [he]
    simp only [Equipment.circulationPumpBands, List.mem_cons, List.not_mem_nil,
      or_false] at hb
    by_cases hlw : length > 1.5 * width
    · rw [if_pos hlw]
      rcases hb with rfl | rfl | rfl | rfl <;> decide
    · rw [if_neg hlw]
      rcases hb with rfl | rfl | rfl | rfl <;> decide
  · rw [Equipment.getFilterRecommendation_eq_last]
    decide
  · norm_num [Equipment.getRecommendationCore, Equipment.findBand, Equipment.jsLe,
      Equipment.heaterBands]

/-- Witness for C4 as amended: instantiated for a 48 x 12 x 24 tank at 50
gallons with 4 sq ft of top area. -/
theorem c4_band_lookup_amended_witness :
    (0:ℚ) ≤ 50 ∧
    (Equipment.getAllRecommendations 48 12 24 50 4).heater =
      Spec.specFirstBandText Equipment.heaterBands 50 :=
  ⟨by norm_num, (c4_band_lookup_amended 48 12 24 50 4 (by norm_num)).1.1⟩

/-- Claim C10 counterexample: at volume 0 the uvSterilizer entry is chosen
with flow 300 (the JS falsy-default of `filterFlow || 300`), giving the
25-36W band, not the 5-9W band that the claimed flow 4 x 0 = 0 selects. -/
theorem c10_uv_flow_counterexample :
    (Equipment.getAllRecommendations 48 12 24 0 4).uvSterilizer = "25-36W UV sterilizer" ∧
    Spec.specFirstBandText Equipment.uvBands (4 * 0) = "5-9W UV sterilizer" ∧
    ("25-36W UV sterilizer" : String) ≠ "5-9W UV sterilizer" := by
  refine ⟨?_, ?_, by decide⟩
  · simp only [Equipment.getAllRecommendations, Equipment.getUVSterilizerRecommendation]
    rw [show Equipment.estimateFilterFlow 0 = 0 from by
        norm_num [Equipment.estimateFilterFlow],
      Equipment.jsOrNum_zero, Equipment.jsOrNum_of_ne (by norm_num)]
    norm_num [Equipment.getRecommendationCore, Equipment.findBand, Equipment.jsLe,
      Equipment.uvBands]
  · norm_num [Spec.specFirstBandText, Spec.specScan, Spec.boundGe, Equipment.uvBands]

/-- Claim C10 as amended: for every POSITIVE volume, the uvSterilizer entry
of getAllRecommendations is selected from the ascending maxFlow bands at
the estimated flow 4 x volume (the midpoint of 3x and 5x); at volume 0 the
falsy-default substitutes flow 300 (see the counterexample). -/
theorem c10_uv_flow_amended (l w h a v : ℚ) (hv : 0 < v) :
    (Equipment.getAllRecommendations l w h v a).uvSterilizer =
      Spec.specFirstBandText Equipment.uvBands (4 * v) := by
  simp only [Equipment.getAllRecommendations, Equipment.getUVSterilizerRecommendation]
  have hflow : Equipment.estimateFilterFlow v = 4 * v := by
    simp only [Equipment.estimateFilterFlow]
    ring
  have h4 : 4 * v ≠ 0 := ne_of_gt (by positivity)
  rw [hflow]
  simp only [Equipment.jsOrNum_of_ne h4]
  exact Equipment.getRecommendationCore_num _ _

/-- Witness for C10: at 50 gallons the estimated flow is 200 gph. -/
theorem c10_uv_flow_amended_witness :
    (0:ℚ) < 50 ∧
    (Equipment.getAllRecommendations 48 12 24 50 4).uvSterilizer =
      Spec.specFirstBandText Equipment.uvBands (4 * 50) :=
  ⟨by norm_num, c10_uv_flow_amended 48 12 24 4 50 (by norm_num)⟩

/-- Claim C2 counterexample: with maxResults = 0 the dedup loop still
appends the first candidate before testing the bound, so a search with one
in-tolerance triple (target 5 gallons, all axes pinned to 10 x 10 x 12)
returns one entry, which is more than maxResults. -/
theorem c2_maxResults_counterexample :
    (DimensionFinder.findDimensions 5 ⟨some 10, some 10, some 12⟩ 0).length = 1 ∧
    ¬ (((DimensionFinder.findDimensions 5 ⟨some 10, some 10, some 12⟩ 0).length : ℤ) ≤ 0) := by
  have hw : DimensionFinder.widthRange ⟨some 10, some 10, some 12⟩ = [10] := by
    norm_num [DimensionFinder.widthRange, DimensionFinder.jsOrDefault,
      DimensionFinder.minDimension, DimensionFinder.maxDimension,
      DimensionFinder.getDimensionRange_cons, DimensionFinder.getDimensionRange_nil,
      DimensionFinder.rangeStep]
  have hl : DimensionFinder.lengthRange ⟨some 10, some 10, some 12⟩ = [10] := by
    norm_num [DimensionFinder.lengthRange, DimensionFinder.jsOrDefault,
      DimensionFinder.minDimension, DimensionFinder.maxDimension,
      DimensionFinder.getDimensionRange_cons, DimensionFinder.getDimensionRange_nil,
      DimensionFinder.rangeStep]
  have hh : DimensionFinder.heightRange ⟨some 10, some 10, some 12⟩ = [12] := by
    norm_num [DimensionFinder.heightRange, DimensionFinder.jsOrDefault,
      DimensionFinder.getDimensionRange_cons, DimensionFinder.getDimensionRange_nil,
      DimensionFinder.rangeStep]
  have hcond : |DimensionFinder.calculateVolume 10 10 12 * 0.264172 - 5| / 5 * 100 ≤
      DimensionFinder.tolerancePercent * 100 := by
    rw [abs_of_nonneg (by norm_num [DimensionFinder.calculateVolume])]
    norm_num [DimensionFinder.calculateVolume, DimensionFinder.tolerancePercent]
  have hsome : (DimensionFinder.candidateAt 5 10 10 12).isSome := by
    simp only [DimensionFinder.candidateAt]
    rw [if_pos hcond]
    rfl
  obtain ⟨r, hr⟩ := Option.isSome_iff_exists.mp hsome
  have hcand : DimensionFinder.candidates 5 ⟨some 10, some 10, some 12⟩ = [r] := by
    simp [DimensionFinder.candidates, hw, hl, hh, hr]
  have hfind : DimensionFinder.findDimensions 5 ⟨some 10, some 10, some 12⟩ 0 = [r] := by
    unfold DimensionFinder.findDimensions DimensionFinder.getUniqueResults
    rw [hcand, List.mergeSort_singleton]
    simp [DimensionFinder.getUniqueResultsAux]
  rw [hfind]
  norm_num

/-- Claim C2 as amended: the tolerance, deduplication and emptiness
guarantees hold for every positive target and constraint set, and the
maxResults bound holds for every maxResults >= 1 (at maxResults = 0 the
loop can return one entry, see the counterexample). -/
theorem c2_findDimensions_guarantees (t : ℚ) (c : DimensionFinder.Constraints) (m : ℤ)
    (ht : 0 < t) (hm : 1 ≤ m) : Spec.findDimensionsGuarantees t c m := by
  refine ⟨?_, ?_, ?_, ?_⟩
  · intro r hr
    obtain ⟨w, hw, le, hle, he, hhe, hsome⟩ := DimensionFinder.mem_findDimensions hr
    obtain ⟨-, -, -, -, hpd⟩ := DimensionFinder.candidateAt_eq_some hsome
    rw [div_mul_eq_mul_div, div_le_iff₀ ht] at hpd
    linarith [hpd]
  · unfold DimensionFinder.findDimensions DimensionFinder.getUniqueResults
    apply DimensionFinder.getUniqueResultsAux_length
    simp only [List.length_nil, Nat.cast_zero]
    omega
  · unfold DimensionFinder.findDimensions DimensionFinder.getUniqueResults
    apply DimensionFinder.getUniqueResultsAux_nodup <;> simp
  · intro hnone
    have hcand : DimensionFinder.candidates t c = [] := by
      unfold DimensionFinder.candidates
      refine List.flatMap_eq_nil_iff.mpr fun w hw => ?_
      refine List.flatMap_eq_nil_iff.mpr fun le hle => ?_
      refine List.filterMap_eq_nil_iff.mpr fun he hhe => ?_
      exact hnone w hw le hle he hhe
    unfold DimensionFinder.findDimensions DimensionFinder.getUniqueResults
    rw [hcand, List.mergeSort_nil]
    rfl

/-- Witness for C2: the guarantees instantiated at target 5 gallons, axes
capped at 10 x 10 x 12, maxResults 3. -/
theorem c2_findDimensions_guarantees_witness :
    (0:ℚ) < 5 ∧ (1:ℤ) ≤ 3 ∧
    Spec.findDimensionsGuarantees 5 ⟨some 10, some 10, some 12⟩ 3 :=
  ⟨by norm_num, by norm_num,
    c2_findDimensions_guarantees 5 ⟨some 10, some 10, some 12⟩ 3 (by norm_num) (by norm_num)⟩

/-- Claim C7 counterexample: findDimensions(20) with default constraints
never returns the 20-Gallon-Long triple 30 x 12 x 12, because 30 is not on
the enumeration grid (the step schedule jumps 24, 28, 32). -/
theorem c7_twenty_long_counterexample :
    ¬ ∃ r ∈ DimensionFinder.findDimensions 20 {} 10,
        r.width = 30 ∧ r.length = 12 ∧ r.height = 12 := by
  rintro ⟨r, hr, h30, -, -⟩
  obtain ⟨w, hw, le, hle, he, hhe, hsome⟩ := DimensionFinder.mem_findDimensions hr
  obtain ⟨hrw, -, -, -, -⟩ := DimensionFinder.candidateAt_eq_some hsome
  rw [DimensionFinder.widthRange_default] at hw
  exact DimensionFinder.grid_10_120_ne_30 w hw (hrw ▸ h30)

/-- Claim C7 as amended: no candidate returned by findDimensions(20,
default constraints, 10) has a rounded width, length or height equal
to 30; every enumerated axis value lies on the step grid, which skips 30,
so the 20-Gallon-Long reference triple 30 x 12 x 12 cannot appear. -/
theorem c7_grid_excludes_thirty :
    (DimensionFinder.findDimensions 20 {} 10).filter
        (fun r => r.width == 30 || r.length == 30 || r.height == 30) = [] := by
  refine List.filter_eq_nil_iff.mpr fun r hr => ?_
  obtain ⟨w, hw, le, hle, he, hhe, hsome⟩ := DimensionFinder.mem_findDimensions hr
  obtain ⟨hrw, hrl, hrh, -, -⟩ := DimensionFinder.candidateAt_eq_some hsome
  rw [DimensionFinder.widthRange_default] at hw
  rw [DimensionFinder.lengthRange_default] at hle
  rw [DimensionFinder.heightRange_default] at hhe
  simp only [Bool.or_eq_true, beq_iff_eq, not_or]
  refine ⟨⟨?_, ?_⟩, ?_⟩
  · rw [hrw]
    exact DimensionFinder.grid_10_120_ne_30 w hw
  · rw [hrl]
    exact DimensionFinder.grid_10_120_ne_30 le hle
  · rw [hrh]
    exact DimensionFinder.grid_12_60_ne_30 he hhe

end Aqua
